import Mathlib

/-!
Verification of the `iia` crate (src/lib.rs): free functions that mirror
`Iterator` adapter methods but accept any `IntoIterator` source.

A Rust iterator `fn next(&mut self) -> Option<Item>` is embedded as a pure
step function `σ → Option α × σ`: it returns the optionally produced item
together with the successor state.  Returning the state even when the item
is `none` is essential, because Rust iterators are not fused by default —
after yielding `None` they may be polled again and yield more items.

Each adapter of `core::iter` that the crate forwards to is translated as a
state transformer on such step functions, following the behaviour of the
standard-library implementation.  A mutable reference passed as a source is
modelled by the borrowed cursor's state living inside the adapter's state:
after the adapter has been driven, the component holding that state is
exactly what the reference points to afterwards.
-/

namespace Iia

/-- One `next` call of a Rust iterator: optionally an item, plus the successor state. -/
def Step (σ α : Type) : Type := σ → Option α × σ

/-- State reached after `n` calls to `next`. -/
def stateAfter (st : Step σ α) : Nat → σ → σ
  | 0, s => s
  | n + 1, s => stateAfter st n (st s).2

/-- Item produced by the `k`-th (0-based) call to `next`, driving from `s`. -/
def outAt (st : Step σ α) (k : Nat) (s : σ) : Option α :=
  (st (stateAfter st k s)).1

/-- The list of results of the first `n` calls to `next`. -/
def runN (st : Step σ α) : Nat → σ → List (Option α)
  | 0, _ => []
  | n + 1, s => (st s).1 :: runN st n (st s).2

/-- Element-by-element output of a cursor given as a (state, step) pair. -/
def runC (k : Nat) (c : σ × Step σ α) : List (Option α) :=
  runN c.2 k c.1

/-- Rust `Iterator::nth(m)`: advance `m` times discarding, then one more `next`. -/
def nthStep (st : Step σ α) : Nat → σ → Option α × σ
  | 0, s => st s
  | m + 1, s => nthStep st m (st s).2

/-- Cursor of an owned list (array/`Vec` iterator): pops from the front. -/
def listStep : Step (List α) α := fun l =>
  match l with
  | [] => (none, [])
  | x :: xs => (some x, xs)

/-- Backward cursor of a list (`next_back` of a double-ended list iterator). -/
def listBack : Step (List α) α := fun l =>
  match l.getLast? with
  | none => (none, [])
  | some x => (some x, l.dropLast)

/-- Cursor of a half-open range `lo..hi` over naturals (Rust `Range` iterator). -/
def rangeStep : Step (Nat × Nat) Nat := fun r =>
  if r.1 < r.2 then (some r.1, (r.1 + 1, r.2)) else (none, r)

/-- An arbitrary scripted cursor: yields the recorded answers in order, then
`none` forever.  It can yield `none` and later `some`, i.e. it is not fused. -/
def scriptStep : Step (List (Option α)) α := fun l =>
  match l with
  | [] => (none, [])
  | o :: rest => (o, rest)

/-- The infinite cursor `0, 1, 2, ...` (Rust `0..`). -/
def natsStep : Step Nat Nat := fun n => (some n, n + 1)

/-- `StepBy` next (field `m` is Rust's stored `step = n - 1`): on the first call
take one element, afterwards `nth(m)` each time. -/
def stepByStep (st : Step σ α) (m : Nat) : Step (Bool × σ) α := fun s =>
  match s with
  | (true, t) => ((st t).1, (false, (st t).2))
  | (false, t) => ((nthStep st m t).1, (false, (nthStep st m t).2))

/-- `Chain` next: poll `a` until it first yields `none` (then drop it for good),
thereafter poll `b`; `b` is kept even after yielding `none`. -/
def chainStep (sta : Step σa α) (stb : Step σb α) :
    Step (Option σa × Option σb) α := fun s =>
  match s.1 with
  | some a =>
    match sta a with
    | (some x, a') => (some x, (some a', s.2))
    | (none, _) =>
      match s.2 with
      | some b => ((stb b).1, (none, some (stb b).2))
      | none => (none, (none, none))
  | none =>
    match s.2 with
    | some b => ((stb b).1, (none, some (stb b).2))
    | none => (none, (none, none))

/-- `Zip` next: `let x = a.next()?; let y = b.next()?; Some((x, y))`. -/
def zipStep (sta : Step σa α) (stb : Step σb β) :
    Step (σa × σb) (α × β) := fun s =>
  match sta s.1 with
  | (none, a') => (none, (a', s.2))
  | (some x, a') =>
    match stb s.2 with
    | (none, b') => (none, (a', b'))
    | (some y, b') => (some (x, y), (a', b'))

/-- `Map` next: apply `f` to the produced item. -/
def mapStep (st : Step σ α) (f : α → β) : Step σ β := fun s =>
  ((st s).1.map f, (st s).2)

/-- `Filter` next is `self.iter.find(predicate)`: a loop; the fuel bounds how
many underlying calls a single `next` may make (a modelling cut-off only). -/
def filterNext (st : Step σ α) (p : α → Bool) : Nat → σ → Option α × σ
  | 0, s => (none, s)
  | fuel + 1, s =>
    match st s with
    | (none, s') => (none, s')
    | (some x, s') => if p x then (some x, s') else filterNext st p fuel s'

def filterStep (st : Step σ α) (p : α → Bool) (fuel : Nat) : Step σ α :=
  filterNext st p fuel

/-- `FilterMap` next: loop until `f` produces a value or the source is empty. -/
def filterMapNext (st : Step σ α) (f : α → Option β) : Nat → σ → Option β × σ
  | 0, s => (none, s)
  | fuel + 1, s =>
    match st s with
    | (none, s') => (none, s')
    | (some x, s') =>
      match f x with
      | some y => (some y, s')
      | none => filterMapNext st f fuel s'

def filterMapStep (st : Step σ α) (f : α → Option β) (fuel : Nat) : Step σ β :=
  filterMapNext st f fuel

/-- `Enumerate` next: pair the item with the running count. -/
def enumStep (st : Step σ α) : Step (σ × Nat) (Nat × α) := fun s =>
  match st s.1 with
  | (none, t) => (none, (t, s.2))
  | (some x, t) => (some (s.2, x), (t, s.2 + 1))

/-- `Peekable` next: a stored peeked slot is returned first, else poll the source. -/
def peekStep (st : Step σ α) : Step (σ × Option (Option α)) α := fun s =>
  match s.2 with
  | some o => (o, (s.1, none))
  | none => ((st s.1).1, ((st s.1).2, none))

/-- `SkipWhile` next: while the done-skipping flag is unset, loop dropping
elements satisfying `p`; the first failure sets the flag and is yielded. -/
def skipWhileNext (st : Step σ α) (p : α → Bool) :
    Nat → σ × Bool → Option α × (σ × Bool)
  | _, (s, true) => ((st s).1, ((st s).2, true))
  | 0, (s, false) => (none, (s, false))
  | fuel + 1, (s, false) =>
    match st s with
    | (none, s') => (none, (s', false))
    | (some x, s') =>
      if p x then skipWhileNext st p fuel (s', false) else (some x, (s', true))

def skipWhileStep (st : Step σ α) (p : α → Bool) (fuel : Nat) :
    Step (σ × Bool) α :=
  skipWhileNext st p fuel

/-- `TakeWhile` next: once the flag is set yield nothing; otherwise poll, and a
failing element sets the flag and is discarded. -/
def takeWhileStep (st : Step σ α) (p : α → Bool) : Step (σ × Bool) α := fun s =>
  match s.2 with
  | true => (none, s)
  | false =>
    match st s.1 with
    | (none, s') => (none, (s', false))
    | (some x, s') => if p x then (some x, (s', false)) else (none, (s', true))

/-- `MapWhile` next: `self.iter.next().and_then(&mut self.predicate)`; no flag,
so it is not fused. -/
def mapWhileStep (st : Step σ α) (f : α → Option β) : Step σ β := fun s =>
  ((st s).1.bind f, (st s).2)

/-- `Skip` next: on the first call with `n > 0` elements pending, `nth(n)`;
afterwards a plain `next`. -/
def skipStep (st : Step σ α) : Step (Nat × σ) α := fun s =>
  match s.1 with
  | 0 => ((st s.2).1, (0, (st s.2).2))
  | n + 1 => ((nthStep st (n + 1) s.2).1, (0, (nthStep st (n + 1) s.2).2))

/-- `Take` next: while the counter is positive decrement it and poll; at zero
yield nothing and leave the source untouched. -/
def takeStep (st : Step σ α) : Step (Nat × σ) α := fun s =>
  match s.1 with
  | 0 => (none, (0, s.2))
  | n + 1 => ((st s.2).1, (n, (st s.2).2))

/-- `Scan` next: `let a = self.iter.next()?; (self.f)(&mut self.state, a)`;
the closure's state mutation is modelled by `f` returning the new state. -/
def scanStep (st : Step σ α) (f : τ → α → Option β × τ) :
    Step (σ × τ) β := fun s =>
  match st s.1 with
  | (none, t) => (none, (t, s.2))
  | (some x, t) => ((f s.2 x).1, (t, (f s.2 x).2))

/-- `Flatten` next: drain the current front inner cursor; when it is exhausted
drop it and pull the next inner source from the (fused) outer cursor.  The
fuel bounds the loop over empty inner cursors (a modelling cut-off only). -/
def flattenNext (st : Step σ ι) (intoInner : ι → σi) (sti : Step σi β) :
    Nat → Option σ × Option σi → Option β × (Option σ × Option σi)
  | 0, s => (none, s)
  | fuel + 1, (so, some si) =>
    match sti si with
    | (some b, si') => (some b, (so, some si'))
    | (none, _) => flattenNext st intoInner sti fuel (so, none)
  | fuel + 1, (some s, none) =>
    match st s with
    | (none, _) => (none, (none, none))
    | (some item, s') =>
      flattenNext st intoInner sti fuel (some s', some (intoInner item))
  | _ + 1, (none, none) => (none, (none, none))

def flattenStep (st : Step σ ι) (intoInner : ι → σi) (sti : Step σi β)
    (fuel : Nat) : Step (Option σ × Option σi) β :=
  flattenNext st intoInner sti fuel

/-- `FlatMap` is `Flatten` over `Map`. -/
def flatMapStep (st : Step σ α) (f : α → ι) (intoInner : ι → σi)
    (sti : Step σi β) (fuel : Nat) : Step (Option σ × Option σi) β :=
  flattenStep (mapStep st f) intoInner sti fuel

/-- `Fuse` next: the source is dropped the first time it yields `none`, and
from then on `none` is returned without polling it. -/
def fuseStep (st : Step σ α) : Step (Option σ) α := fun s =>
  match s with
  | none => (none, none)
  | some t =>
    match st t with
    | (none, _) => (none, none)
    | (some x, t') => (some x, some t')

/-- `Inspect` next: the item passes through unchanged; the inspection closure
is side-effect only, hence invisible in a pure model. -/
def inspectStep (st : Step σ α) (_f : α → Unit) : Step σ α := st

/-- `Copied` next: `self.it.next().copied()`; items are modelled by value, so
dereference-and-copy is the identity on them. -/
def copiedStep (st : Step σ α) : Step σ α := st

/-- `Cloned` next: `self.it.next().cloned()`; same value model as `copied`. -/
def clonedStep (st : Step σ α) : Step σ α := st

/-- `Cycle` next: poll the working cursor, and on `none` reset it to a clone of
the original and poll once more. -/
def cycleStep (st : Step σ α) : Step (σ × σ) α := fun s =>
  match st s.2 with
  | (some x, c') => (some x, (s.1, c'))
  | (none, _) => ((st s.1).1, (s.1, (st s.1).2))

/-- A double-ended cursor: `next` and `next_back`. -/
structure DStep (σ α : Type) where
  fwd : Step σ α
  bwd : Step σ α

/-- `Rev`: swap the two ends (`next` is the source's `next_back` and vice versa). -/
def revD (d : DStep σ α) : DStep σ α := ⟨d.bwd, d.fwd⟩

/-- The double-ended cursor of a list. -/
def listD : DStep (List α) α := ⟨listStep, listBack⟩

/-!
The built-in `Iterator` methods, as constructions on an already-obtained
cursor `(state, step)`.  These are the spec side of the refinement claim:
"convert the source to its cursor form, then call the equivalent built-in
method on it".  Each packages the given cursor state into the adapter's
state; closures and parameters become parameters of the step function.
-/

namespace Method

/-- `Iterator::step_by(n)`: panics when `n == 0` (modelled as `none`), else
stores `step = n - 1` with the first-take flag set. -/
def step_by (s : σ) (st : Step σ α) (n : Nat) :
    Option ((Bool × σ) × Step (Bool × σ) α) :=
  if n = 0 then none else some ((true, s), stepByStep st (n - 1))

/-- `Iterator::chain`. -/
def chain (sa : σa) (sta : Step σa α) (sb : σb) (stb : Step σb α) :
    (Option σa × Option σb) × Step (Option σa × Option σb) α :=
  ((some sa, some sb), chainStep sta stb)

/-- `Iterator::zip`. -/
def zip (sa : σa) (sta : Step σa α) (sb : σb) (stb : Step σb β) :
    (σa × σb) × Step (σa × σb) (α × β) :=
  ((sa, sb), zipStep sta stb)

/-- `Iterator::map`. -/
def map (s : σ) (st : Step σ α) (f : α → β) : σ × Step σ β :=
  (s, mapStep st f)

/-- `Iterator::filter`. -/
def filter (s : σ) (st : Step σ α) (p : α → Bool) (fuel : Nat) :
    σ × Step σ α :=
  (s, filterStep st p fuel)

/-- `Iterator::filter_map`. -/
def filter_map (s : σ) (st : Step σ α) (f : α → Option β) (fuel : Nat) :
    σ × Step σ β :=
  (s, filterMapStep st f fuel)

/-- `Iterator::enumerate`: count starts at zero. -/
def enumerate (s : σ) (st : Step σ α) : (σ × Nat) × Step (σ × Nat) (Nat × α) :=
  ((s, 0), enumStep st)

/-- `Iterator::peekable`: the peeked slot starts empty. -/
def peekable (s : σ) (st : Step σ α) :
    (σ × Option (Option α)) × Step (σ × Option (Option α)) α :=
  ((s, none), peekStep st)

/-- `Iterator::skip_while`: the done-skipping flag starts unset. -/
def skip_while (s : σ) (st : Step σ α) (p : α → Bool) (fuel : Nat) :
    (σ × Bool) × Step (σ × Bool) α :=
  ((s, false), skipWhileStep st p fuel)

/-- `Iterator::take_while`: the stopped flag starts unset. -/
def take_while (s : σ) (st : Step σ α) (p : α → Bool) :
    (σ × Bool) × Step (σ × Bool) α :=
  ((s, false), takeWhileStep st p)

/-- `Iterator::map_while`. -/
def map_while (s : σ) (st : Step σ α) (f : α → Option β) : σ × Step σ β :=
  (s, mapWhileStep st f)

/-- `Iterator::skip(n)`. -/
def skip (s : σ) (st : Step σ α) (n : Nat) : (Nat × σ) × Step (Nat × σ) α :=
  ((n, s), skipStep st)

/-- `Iterator::take(n)`. -/
def take (s : σ) (st : Step σ α) (n : Nat) : (Nat × σ) × Step (Nat × σ) α :=
  ((n, s), takeStep st)

/-- `Iterator::scan(initial_state, f)`. -/
def scan (s : σ) (st : Step σ α) (st0 : τ) (f : τ → α → Option β × τ) :
    (σ × τ) × Step (σ × τ) β :=
  ((s, st0), scanStep st f)

/-- `Iterator::flat_map(f)`. -/
def flat_map (s : σ) (st : Step σ α) (f : α → ι) (intoInner : ι → σi)
    (sti : Step σi β) (fuel : Nat) :
    (Option σ × Option σi) × Step (Option σ × Option σi) β :=
  ((some s, none), flatMapStep st f intoInner sti fuel)

/-- `Iterator::flatten`. -/
def flatten (s : σ) (st : Step σ ι) (intoInner : ι → σi) (sti : Step σi β)
    (fuel : Nat) :
    (Option σ × Option σi) × Step (Option σ × Option σi) β :=
  ((some s, none), flattenStep st intoInner sti fuel)

/-- `Iterator::fuse`. -/
def fuse (s : σ) (st : Step σ α) : Option σ × Step (Option σ) α :=
  (some s, fuseStep st)

/-- `Iterator::inspect(f)`. -/
def inspect (s : σ) (st : Step σ α) (f : α → Unit) : σ × Step σ α :=
  (s, inspectStep st f)

/-- `Iterator::rev` on a double-ended cursor. -/
def rev (s : σ) (d : DStep σ α) : σ × Step σ α :=
  (s, (revD d).fwd)

/-- `Iterator::copied`. -/
def copied (s : σ) (st : Step σ α) : σ × Step σ α :=
  (s, copiedStep st)

/-- `Iterator::cloned`. -/
def cloned (s : σ) (st : Step σ α) : σ × Step σ α :=
  (s, clonedStep st)

/-- `Iterator::cycle`: keep a clone of the original cursor beside the working one. -/
def cycle (s : σ) (st : Step σ α) : (σ × σ) × Step (σ × σ) α :=
  ((s, s), cycleStep st)

end Method

/-!
The crate's free functions (src/lib.rs).  An `IntoIterator` source is a value
`iter : ι` together with its conversion `intoIt : ι → σ` to the cursor state
and the cursor's step function(s); each free function is the source's literal
body `iter.into_iter().method(...)`.  For a source that already is a cursor,
or a mutable reference to one, `intoIt` is the identity.
-/

/-- `pub fn step_by<I: IntoIterator>(iter: I, step: usize)`. -/
def step_by (intoIt : ι → σ) (st : Step σ α) (iter : ι) (n : Nat) :
    Option ((Bool × σ) × Step (Bool × σ) α) :=
  Method.step_by (intoIt iter) st n

/-- `pub fn chain<A: IntoIterator, B: IntoIterator<Item = A::Item>>(a: A, b: B)`. -/
def chain (intoA : ιa → σa) (sta : Step σa α) (intoB : ιb → σb)
    (stb : Step σb α) (a : ιa) (b : ιb) :
    (Option σa × Option σb) × Step (Option σa × Option σb) α :=
  Method.chain (intoA a) sta (intoB b) stb

/-- `pub fn zip<A: IntoIterator, B: IntoIterator>(a: A, b: B)`. -/
def zip (intoA : ιa → σa) (sta : Step σa α) (intoB : ιb → σb)
    (stb : Step σb β) (a : ιa) (b : ιb) :
    (σa × σb) × Step (σa × σb) (α × β) :=
  Method.zip (intoA a) sta (intoB b) stb

/-- `pub fn map<I: IntoIterator, B, F>(iter: I, f: F)`. -/
def map (intoIt : ι → σ) (st : Step σ α) (iter : ι) (f : α → β) :
    σ × Step σ β :=
  Method.map (intoIt iter) st f

/-- `pub fn filter<I: IntoIterator, P>(iter: I, predicate: P)`. -/
def filter (intoIt : ι → σ) (st : Step σ α) (iter : ι) (p : α → Bool)
    (fuel : Nat) : σ × Step σ α :=
  Method.filter (intoIt iter) st p fuel

/-- `pub fn filter_map<I: IntoIterator, B, F>(iter: I, f: F)`. -/
def filter_map (intoIt : ι → σ) (st : Step σ α) (iter : ι) (f : α → Option β)
    (fuel : Nat) : σ × Step σ β :=
  Method.filter_map (intoIt iter) st f fuel

/-- `pub fn enumerate<I: IntoIterator>(iter: I)`. -/
def enumerate (intoIt : ι → σ) (st : Step σ α) (iter : ι) :
    (σ × Nat) × Step (σ × Nat) (Nat × α) :=
  Method.enumerate (intoIt iter) st

/-- `pub fn peekable<I: IntoIterator>(iter: I)`. -/
def peekable (intoIt : ι → σ) (st : Step σ α) (iter : ι) :
    (σ × Option (Option α)) × Step (σ × Option (Option α)) α :=
  Method.peekable (intoIt iter) st

/-- `pub fn skip_while<I: IntoIterator, P>(iter: I, predicate: P)`. -/
def skip_while (intoIt : ι → σ) (st : Step σ α) (iter : ι) (p : α → Bool)
    (fuel : Nat) : (σ × Bool) × Step (σ × Bool) α :=
  Method.skip_while (intoIt iter) st p fuel

/-- `pub fn take_while<I: IntoIterator, P>(iter: I, predicate: P)`. -/
def take_while (intoIt : ι → σ) (st : Step σ α) (iter : ι) (p : α → Bool) :
    (σ × Bool) × Step (σ × Bool) α :=
  Method.take_while (intoIt iter) st p

/-- `pub fn map_while<I: IntoIterator, B, P>(iter: I, predicate: P)`. -/
def map_while (intoIt : ι → σ) (st : Step σ α) (iter : ι) (f : α → Option β) :
    σ × Step σ β :=
  Method.map_while (intoIt iter) st f

/-- `pub fn skip<I: IntoIterator>(iter: I, n: usize)`. -/
def skip (intoIt : ι → σ) (st : Step σ α) (iter : ι) (n : Nat) :
    (Nat × σ) × Step (Nat × σ) α :=
  Method.skip (intoIt iter) st n

/-- `pub fn take<I: IntoIterator>(iter: I, n: usize)`. -/
def take (intoIt : ι → σ) (st : Step σ α) (iter : ι) (n : Nat) :
    (Nat × σ) × Step (Nat × σ) α :=
  Method.take (intoIt iter) st n

/-- `pub fn scan<I: IntoIterator, St, B, F>(iter: I, initial_state: St, f: F)`. -/
def scan (intoIt : ι → σ) (st : Step σ α) (iter : ι) (st0 : τ)
    (f : τ → α → Option β × τ) : (σ × τ) × Step (σ × τ) β :=
  Method.scan (intoIt iter) st st0 f

/-- `pub fn flat_map<I: IntoIterator, U: IntoIterator, F>(iter: I, f: F)`. -/
def flat_map (intoIt : ι → σ) (st : Step σ α) (iter : ι) (f : α → ι2)
    (intoInner : ι2 → σi) (sti : Step σi β) (fuel : Nat) :
    (Option σ × Option σi) × Step (Option σ × Option σi) β :=
  Method.flat_map (intoIt iter) st f intoInner sti fuel

/-- `pub fn flatten<I: IntoIterator>(iter: I) where I::Item: IntoIterator`. -/
def flatten (intoIt : ι → σ) (st : Step σ ι2) (iter : ι)
    (intoInner : ι2 → σi) (sti : Step σi β) (fuel : Nat) :
    (Option σ × Option σi) × Step (Option σ × Option σi) β :=
  Method.flatten (intoIt iter) st intoInner sti fuel

/-- `pub fn fuse<I: IntoIterator>(iter: I)`. -/
def fuse (intoIt : ι → σ) (st : Step σ α) (iter : ι) :
    Option σ × Step (Option σ) α :=
  Method.fuse (intoIt iter) st

/-- `pub fn inspect<I: IntoIterator, F>(iter: I, f: F)`. -/
def inspect (intoIt : ι → σ) (st : Step σ α) (iter : ι) (f : α → Unit) :
    σ × Step σ α :=
  Method.inspect (intoIt iter) st f

/-- `pub fn rev<I: IntoIterator>(iter: I) where I::IntoIter: DoubleEndedIterator`. -/
def rev (intoIt : ι → σ) (d : DStep σ α) (iter : ι) : σ × Step σ α :=
  Method.rev (intoIt iter) d

/-- `pub fn copied<T: Copy, I: IntoIterator<Item = &T>>(iter: I)`. -/
def copied (intoIt : ι → σ) (st : Step σ α) (iter : ι) : σ × Step σ α :=
  Method.copied (intoIt iter) st

/-- `pub fn cloned<T: Clone, I: IntoIterator<Item = &T>>(iter: I)`. -/
def cloned (intoIt : ι → σ) (st : Step σ α) (iter : ι) : σ × Step σ α :=
  Method.cloned (intoIt iter) st

/-- `pub fn cycle<I: IntoIterator>(iter: I) where I::IntoIter: Clone`. -/
def cycle (intoIt : ι → σ) (st : Step σ α) (iter : ι) :
    (σ × σ) × Step (σ × σ) α :=
  Method.cycle (intoIt iter) st

theorem stateAfter_add (st : Step σ α) (a b : Nat) (s : σ) :
    stateAfter st (a + b) s = stateAfter st b (stateAfter st a s) := by
  induction a generalizing s with
  | zero => rw [Nat.zero_add]; rfl
  | succ a ih =>
    rw [Nat.succ_add]
    exact ih (st s).2

theorem outAt_add (st : Step σ α) (a b : Nat) (s : σ) :
    outAt st (a + b) s = outAt st b (stateAfter st a s) := by
  unfold outAt
  rw [stateAfter_add]

theorem stateAfter_succ_back (st : Step σ α) (k : Nat) (s : σ) :
    stateAfter st (k + 1) s = (st (stateAfter st k s)).2 :=
  stateAfter_add st k 1 s

theorem nthStep_eq (st : Step σ α) (m : Nat) (s : σ) :
    nthStep st m s = (outAt st m s, stateAfter st (m + 1) s) := by
  induction m generalizing s with
  | zero => rfl
  | succ m ih => exact ih (st s).2

theorem stepBy_stateAfter_false (st : Step σ α) (m k : Nat) (t : σ) :
    stateAfter (stepByStep st m) k (false, t)
      = (false, stateAfter st (k * (m + 1)) t) := by
  induction k generalizing t with
  | zero => rw [Nat.zero_mul]; rfl
  | succ k ih =>
    have h1 : stateAfter (stepByStep st m) (k + 1) (false, t)
        = stateAfter (stepByStep st m) k (stepByStep st m (false, t)).2 := rfl
    rw [h1]
    have h2 : (stepByStep st m (false, t)).2 = (false, stateAfter st (m + 1) t) := by
      simp [stepByStep, nthStep_eq]
    rw [h2, ih, ← stateAfter_add]
    have h3 : m + 1 + k * (m + 1) = (k + 1) * (m + 1) := by ring
    rw [h3]

theorem stepBy_outAt (st : Step σ α) (m k : Nat) (s : σ) :
    outAt (stepByStep st m) k (true, s) = outAt st (k * (m + 1)) s := by
  cases k with
  | zero => rw [Nat.zero_mul]; rfl
  | succ k =>
    have h1 : outAt (stepByStep st m) (k + 1) (true, s)
        = (stepByStep st m
            (stateAfter (stepByStep st m) k (false, (st s).2))).1 := rfl
    rw [h1, stepBy_stateAfter_false]
    have h2 : (stepByStep st m
        ((false, stateAfter st (k * (m + 1)) (st s).2) : Bool × σ)).1
        = outAt st m (stateAfter st (k * (m + 1)) (st s).2) := by
      simp [stepByStep, nthStep_eq]
    rw [h2]
    have h3 : (st s).2 = stateAfter st 1 s := rfl
    rw [h3, ← stateAfter_add, ← outAt_add]
    have h4 : 1 + k * (m + 1) + m = (k + 1) * (m + 1) := by ring
    rw [h4]

theorem fuse_stateAfter_none (st : Step σ α) (k : Nat) :
    stateAfter (fuseStep st) k (none : Option σ) = none := by
  induction k with
  | zero => rfl
  | succ k ih => exact ih

theorem fuse_outAt_none (st : Step σ α) (k : Nat) :
    outAt (fuseStep st) k (none : Option σ) = none := by
  unfold outAt
  rw [fuse_stateAfter_none]
  rfl

theorem fuse_clear (st : Step σ α) (s : Option σ)
    (h : (fuseStep st s).1 = none) : (fuseStep st s).2 = none := by
  cases s with
  | none => rfl
  | some t =>
    rcases ht : st t with ⟨o, t'⟩
    cases o with
    | none => simp [fuseStep, ht]
    | some x => simp [fuseStep, ht] at h

theorem zip_nil_right (k : Nat) (l : List Nat) :
    outAt (zipStep listStep listStep) k (l, ([] : List Nat)) = none := by
  induction k generalizing l with
  | zero => cases l <;> rfl
  | succ k ih =>
    have h1 : outAt (zipStep listStep listStep) (k + 1) (l, ([] : List Nat))
        = outAt (zipStep listStep listStep) k
            (zipStep listStep listStep (l, ([] : List Nat))).2 := rfl
    rw [h1]
    cases l with
    | nil => exact ih []
    | cons x xs => exact ih xs

theorem take_zero_state (st : Step σ α) (s : σ) (k : Nat) :
    stateAfter (takeStep st) k (0, s) = (0, s) := by
  induction k with
  | zero => rfl
  | succ k ih => exact ih

/-- C1: for every operation and every owned source, the free function applied
to the source produces the same element-by-element output, at every length
`k`, as first converting the source to its cursor form (`intoIt`) and calling
the equivalent built-in `Iterator` method on it with the same parameters. -/
theorem c1_free_functions_refine_methods :
    (∀ (ι σ α : Type) (intoIt : ι → σ) (st : Step σ α) (iter : ι) (n k : Nat),
        (step_by intoIt st iter n).map (runC k)
          = (Method.step_by (intoIt iter) st n).map (runC k))
    ∧ (∀ (ιa σa ιb σb α : Type) (intoA : ιa → σa) (sta : Step σa α)
        (intoB : ιb → σb) (stb : Step σb α) (a : ιa) (b : ιb) (k : Nat),
        runC k (chain intoA sta intoB stb a b)
          = runC k (Method.chain (intoA a) sta (intoB b) stb))
    ∧ (∀ (ιa σa ιb σb α β : Type) (intoA : ιa → σa) (sta : Step σa α)
        (intoB : ιb → σb) (stb : Step σb β) (a : ιa) (b : ιb) (k : Nat),
        runC k (zip intoA sta intoB stb a b)
          = runC k (Method.zip (intoA a) sta (intoB b) stb))
    ∧ (∀ (ι σ α β : Type) (intoIt : ι → σ) (st : Step σ α) (iter : ι)
        (f : α → β) (k : Nat),
        runC k (map intoIt st iter f) = runC k (Method.map (intoIt iter) st f))
    ∧ (∀ (ι σ α : Type) (intoIt : ι → σ) (st : Step σ α) (iter : ι)
        (p : α → Bool) (fuel k : Nat),
        runC k (filter intoIt st iter p fuel)
          = runC k (Method.filter (intoIt iter) st p fuel))
    ∧ (∀ (ι σ α β : Type) (intoIt : ι → σ) (st : Step σ α) (iter : ι)
        (f : α → Option β) (fuel k : Nat),
        runC k (filter_map intoIt st iter f fuel)
          = runC k (Method.filter_map (intoIt iter) st f fuel))
    ∧ (∀ (ι σ α : Type) (intoIt : ι → σ) (st : Step σ α) (iter : ι) (k : Nat),
        runC k (enumerate intoIt st iter)
          = runC k (Method.enumerate (intoIt iter) st))
    ∧ (∀ (ι σ α : Type) (intoIt : ι → σ) (st : Step σ α) (iter : ι) (k : Nat),
        runC k (peekable intoIt st iter)
          = runC k (Method.peekable (intoIt iter) st))
    ∧ (∀ (ι σ α : Type) (intoIt : ι → σ) (st : Step σ α) (iter : ι)
        (p : α → Bool) (fuel k : Nat),
        runC k (skip_while intoIt st iter p fuel)
          = runC k (Method.skip_while (intoIt iter) st p fuel))
    ∧ (∀ (ι σ α : Type) (intoIt : ι → σ) (st : Step σ α) (iter : ι)
        (p : α → Bool) (k : Nat),
        runC k (take_while intoIt st iter p)
          = runC k (Method.take_while (intoIt iter) st p))
    ∧ (∀ (ι σ α β : Type) (intoIt : ι → σ) (st : Step σ α) (iter : ι)
        (f : α → Option β) (k : Nat),
        runC k (map_while intoIt st iter f)
          = runC k (Method.map_while (intoIt iter) st f))
    ∧ (∀ (ι σ α : Type) (intoIt : ι → σ) (st : Step σ α) (iter : ι) (n k : Nat),
        runC k (skip intoIt st iter n) = runC k (Method.skip (intoIt iter) st n))
    ∧ (∀ (ι σ α : Type) (intoIt : ι → σ) (st : Step σ α) (iter : ι) (n k : Nat),
        runC k (take intoIt st iter n) = runC k (Method.take (intoIt iter) st n))
    ∧ (∀ (ι σ α τ β : Type) (intoIt : ι → σ) (st : Step σ α) (iter : ι)
        (st0 : τ) (f : τ → α → Option β × τ) (k : Nat),
        runC k (scan intoIt st iter st0 f)
          = runC k (Method.scan (intoIt iter) st st0 f))
    ∧ (∀ (ι σ α ι2 σi β : Type) (intoIt : ι → σ) (st : Step σ α) (iter : ι)
        (f : α → ι2) (intoInner : ι2 → σi) (sti : Step σi β) (fuel k : Nat),
        runC k (flat_map intoIt st iter f intoInner sti fuel)
          = runC k (Method.flat_map (intoIt iter) st f intoInner sti fuel))
    ∧ (∀ (ι σ ι2 σi β : Type) (intoIt : ι → σ) (st : Step σ ι2) (iter : ι)
        (intoInner : ι2 → σi) (sti : Step σi β) (fuel k : Nat),
        runC k (flatten intoIt st iter intoInner sti fuel)
          = runC k (Method.flatten (intoIt iter) st intoInner sti fuel))
    ∧ (∀ (ι σ α : Type) (intoIt : ι → σ) (st : Step σ α) (iter : ι) (k : Nat),
        runC k (fuse intoIt st iter) = runC k (Method.fuse (intoIt iter) st))
    ∧ (∀ (ι σ α : Type) (intoIt : ι → σ) (st : Step σ α) (iter : ι)
        (f : α → Unit) (k : Nat),
        runC k (inspect intoIt st iter f)
          = runC k (Method.inspect (intoIt iter) st f))
    ∧ (∀ (ι σ α : Type) (intoIt : ι → σ) (d : DStep σ α) (iter : ι) (k : Nat),
        runC k (rev intoIt d iter) = runC k (Method.rev (intoIt iter) d))
    ∧ (∀ (ι σ α : Type) (intoIt : ι → σ) (st : Step σ α) (iter : ι) (k : Nat),
        runC k (copied intoIt st iter) = runC k (Method.copied (intoIt iter) st))
    ∧ (∀ (ι σ α : Type) (intoIt : ι → σ) (st : Step σ α) (iter : ι) (k : Nat),
        runC k (cloned intoIt st iter) = runC k (Method.cloned (intoIt iter) st))
    ∧ (∀ (ι σ α : Type) (intoIt : ι → σ) (st : Step σ α) (iter : ι) (k : Nat),
        runC k (cycle intoIt st iter) = runC k (Method.cycle (intoIt iter) st)) :=
  ⟨fun _ _ _ _ _ _ _ _ => rfl, fun _ _ _ _ _ _ _ _ _ _ _ _ => rfl,
    fun _ _ _ _ _ _ _ _ _ _ _ _ _ => rfl, fun _ _ _ _ _ _ _ _ _ => rfl,
    fun _ _ _ _ _ _ _ _ _ => rfl, fun _ _ _ _ _ _ _ _ _ _ => rfl,
    fun _ _ _ _ _ _ _ => rfl, fun _ _ _ _ _ _ _ => rfl,
    fun _ _ _ _ _ _ _ _ _ => rfl, fun _ _ _ _ _ _ _ _ => rfl,
    fun _ _ _ _ _ _ _ _ _ => rfl, fun _ _ _ _ _ _ _ _ => rfl,
    fun _ _ _ _ _ _ _ _ => rfl, fun _ _ _ _ _ _ _ _ _ _ _ => rfl,
    fun _ _ _ _ _ _ _ _ _ _ _ _ _ _ => rfl,
    fun _ _ _ _ _ _ _ _ _ _ _ _ => rfl, fun _ _ _ _ _ _ _ => rfl,
    fun _ _ _ _ _ _ _ _ => rfl, fun _ _ _ _ _ _ _ => rfl,
    fun _ _ _ _ _ _ _ => rfl, fun _ _ _ _ _ _ _ => rfl,
    fun _ _ _ _ _ _ _ => rfl⟩

/-- C2: `chain([1, 2, 3], &mut (0..10))` driven to consume exactly 5 elements
yields 1, 2, 3 from the list then 0, 1 from the range, and leaves the borrowed
range cursor (the second component of the chain state) holding `2..10`; the
module-doc variant `nth(5)` makes 6 `next` calls and leaves it at `3..10`. -/
theorem c2_chain_frame :
    runC 5 (chain id listStep id rangeStep [1, 2, 3] (0, 10))
      = [some 1, some 2, some 3, some 0, some 1]
    ∧ (stateAfter (chainStep listStep rangeStep) 5
        (some [1, 2, 3], some (0, 10))).2 = some (2, 10)
    ∧ (stateAfter (chainStep listStep rangeStep) 6
        (some [1, 2, 3], some (0, 10))).2 = some (3, 10) :=
  ⟨by decide, by decide, by decide⟩

/-- C3: `zip([1, 2, 3], [4, 5])` yields exactly the pairs `(1, 4)` and `(2, 5)`
and then yields nothing forever (shorter-sequence rule). -/
theorem c3_zip_shorter :
    runC 2 (zip id listStep id listStep [1, 2, 3] ([4, 5] : List Nat))
      = [some (1, 4), some (2, 5)]
    ∧ runN (zipStep listStep listStep) 5 (([1, 2, 3] : List Nat), ([4, 5] : List Nat))
      = [some (1, 4), some (2, 5), none, none, none]
    ∧ (∀ k : Nat, outAt (zipStep listStep listStep) (2 + k)
        (([1, 2, 3] : List Nat), ([4, 5] : List Nat)) = none) := by
  refine ⟨by decide, by decide, ?_⟩
  intro k
  rw [outAt_add]
  have h : stateAfter (zipStep listStep listStep) 2
      (([1, 2, 3] : List Nat), ([4, 5] : List Nat)) = ([3], []) := by decide
  rw [h]
  exact zip_nil_right k [3]

/-- C4: the adapter `step_by` fails (returns `none`, the image of the
primitive's panic) exactly when the step is zero, and it is the primitive's
own result propagated unchanged; for every nonzero step `m + 1` the
constructed cursor's `k`-th output is the source's `(k * (m + 1))`-th output,
i.e. every `(m + 1)`-th element starting from the first; concretely,
`step_by([0, 1, 2, 3, 4, 5], 2)` yields `0, 2, 4`. -/
theorem c4_step_by_zero_and_stride :
    (∀ (ι σ α : Type) (intoIt : ι → σ) (st : Step σ α) (iter : ι),
        step_by intoIt st iter 0 = none)
    ∧ (∀ (ι σ α : Type) (intoIt : ι → σ) (st : Step σ α) (iter : ι) (n : Nat),
        step_by intoIt st iter n = Method.step_by (intoIt iter) st n)
    ∧ (∀ (σ α : Type) (st : Step σ α) (s : σ) (m k : Nat),
        (Method.step_by s st (m + 1)).map (fun c => outAt c.2 k c.1)
          = some (outAt st (k * (m + 1)) s))
    ∧ (step_by id listStep ([0, 1, 2, 3, 4, 5] : List Nat) 2).map (runC 4)
        = some [some 0, some 2, some 4, none] := by
  refine ⟨fun _ _ _ _ _ _ => rfl, fun _ _ _ _ _ _ _ => rfl, ?_, by decide⟩
  intro σ α st s m k
  have h := stepBy_outAt st m k s
  show some (outAt (stepByStep st m) k (true, s))
      = some (outAt st (k * (m + 1)) s)
  rw [h]

/-- C5: a fused cursor that has once yielded `none` yields `none` at every
later position, for every source; on the scripted source that yields empty,
then non-empty, then empty, the fused cursor yields nothing at all, and on a
script with a leading non-empty run it yields exactly that run — unlike the
raw script, which resumes after its first `none`. -/
theorem c5_fuse_stays_empty :
    (∀ (σ α : Type) (st : Step σ α) (s0 : Option σ) (k j : Nat),
        outAt (fuseStep st) k s0 = none → outAt (fuseStep st) (k + j) s0 = none)
    ∧ runN (fuseStep scriptStep) 5 (some [(none : Option Nat), some 5, none])
        = [none, none, none, none, none]
    ∧ runN (fuseStep scriptStep) 5 (some [(some 1 : Option Nat), some 2, none, some 9])
        = [some 1, some 2, none, none, none]
    ∧ runN scriptStep 5 [(some 1 : Option Nat), some 2, none, some 9]
        = [some 1, some 2, none, some 9, none] := by
  refine ⟨?_, by decide, by decide, by decide⟩
  intro σ α st s0 k j h
  cases j with
  | zero => rw [Nat.add_zero]; exact h
  | succ j =>
    have h1 : k + (j + 1) = (k + 1) + j := by ring
    rw [h1, outAt_add]
    have h2 : stateAfter (fuseStep st) (k + 1) s0 = none := by
      rw [stateAfter_succ_back]
      exact fuse_clear st _ h
    rw [h2, fuse_outAt_none]

/-- Witness for C5 at a concrete input: the fused scripted cursor has already
yielded `none` at position 0, so position 0 + 2 is `none` as well. -/
theorem c5_fuse_stays_empty_witness :
    outAt (fuseStep scriptStep) (0 + 2) (some [(none : Option Nat), some 5, none])
      = none :=
  c5_fuse_stays_empty.1 (List (Option Nat)) Nat scriptStep
    (some [none, some 5, none]) 0 2 (by decide)

/-- C6: for every operation, the construction call packages the already-converted
cursor state into the adapter state unchanged — zero elements are consumed at
construction time; consumption happens only as the returned cursor is driven. -/
theorem c6_construction_consumes_nothing :
    (∀ (σ α : Type) (s : σ) (st : Step σ α) (n : Nat),
        Method.step_by s st (n + 1) = some ((true, s), stepByStep st n))
    ∧ (∀ (σa σb α : Type) (sa : σa) (sta : Step σa α) (sb : σb) (stb : Step σb α),
        (Method.chain sa sta sb stb).1 = (some sa, some sb))
    ∧ (∀ (σa σb α β : Type) (sa : σa) (sta : Step σa α) (sb : σb) (stb : Step σb β),
        (Method.zip sa sta sb stb).1 = (sa, sb))
    ∧ (∀ (σ α β : Type) (s : σ) (st : Step σ α) (f : α → β),
        (Method.map s st f).1 = s)
    ∧ (∀ (σ α : Type) (s : σ) (st : Step σ α) (p : α → Bool) (fuel : Nat),
        (Method.filter s st p fuel).1 = s)
    ∧ (∀ (σ α β : Type) (s : σ) (st : Step σ α) (f : α → Option β) (fuel : Nat),
        (Method.filter_map s st f fuel).1 = s)
    ∧ (∀ (σ α : Type) (s : σ) (st : Step σ α),
        (Method.enumerate s st).1 = (s, 0))
    ∧ (∀ (σ α : Type) (s : σ) (st : Step σ α),
        (Method.peekable s st).1 = (s, none))
    ∧ (∀ (σ α : Type) (s : σ) (st : Step σ α) (p : α → Bool) (fuel : Nat),
        (Method.skip_while s st p fuel).1 = (s, false))
    ∧ (∀ (σ α : Type) (s : σ) (st : Step σ α) (p : α → Bool),
        (Method.take_while s st p).1 = (s, false))
    ∧ (∀ (σ α β : Type) (s : σ) (st : Step σ α) (f : α → Option β),
        (Method.map_while s st f).1 = s)
    ∧ (∀ (σ α : Type) (s : σ) (st : Step σ α) (n : Nat),
        (Method.skip s st n).1 = (n, s))
    ∧ (∀ (σ α : Type) (s : σ) (st : Step σ α) (n : Nat),
        (Method.take s st n).1 = (n, s))
    ∧ (∀ (σ α τ β : Type) (s : σ) (st : Step σ α) (st0 : τ)
        (f : τ → α → Option β × τ), (Method.scan s st st0 f).1 = (s, st0))
    ∧ (∀ (σ α ι σi β : Type) (s : σ) (st : Step σ α) (f : α → ι)
        (intoInner : ι → σi) (sti : Step σi β) (fuel : Nat),
        (Method.flat_map s st f intoInner sti fuel).1 = (some s, none))
    ∧ (∀ (σ ι σi β : Type) (s : σ) (st : Step σ ι) (intoInner : ι → σi)
        (sti : Step σi β) (fuel : Nat),
        (Method.flatten s st intoInner sti fuel).1 = (some s, none))
    ∧ (∀ (σ α : Type) (s : σ) (st : Step σ α), (Method.fuse s st).1 = some s)
    ∧ (∀ (σ α : Type) (s : σ) (st : Step σ α) (f : α → Unit),
        (Method.inspect s st f).1 = s)
    ∧ (∀ (σ α : Type) (s : σ) (d : DStep σ α), (Method.rev s d).1 = s)
    ∧ (∀ (σ α : Type) (s : σ) (st : Step σ α), (Method.copied s st).1 = s)
    ∧ (∀ (σ α : Type) (s : σ) (st : Step σ α), (Method.cloned s st).1 = s)
    ∧ (∀ (σ α : Type) (s : σ) (st : Step σ α), (Method.cycle s st).1 = (s, s)) :=
  ⟨fun _ _ _ _ _ => rfl, fun _ _ _ _ _ _ _ => rfl, fun _ _ _ _ _ _ _ _ => rfl,
    fun _ _ _ _ _ _ => rfl, fun _ _ _ _ _ _ => rfl, fun _ _ _ _ _ _ _ => rfl,
    fun _ _ _ _ => rfl, fun _ _ _ _ => rfl, fun _ _ _ _ _ _ => rfl,
    fun _ _ _ _ _ => rfl, fun _ _ _ _ _ _ => rfl, fun _ _ _ _ _ => rfl,
    fun _ _ _ _ _ => rfl, fun _ _ _ _ _ _ _ _ => rfl,
    fun _ _ _ _ _ _ _ _ _ _ _ => rfl, fun _ _ _ _ _ _ _ _ _ => rfl,
    fun _ _ _ _ => rfl, fun _ _ _ _ _ => rfl, fun _ _ _ _ => rfl,
    fun _ _ _ _ => rfl, fun _ _ _ _ => rfl, fun _ _ _ _ => rfl⟩

/-- C7: `rev([1, 2, 3])` enumerated yields exactly `(0, 3)`, `(1, 2)`, `(2, 1)`
and then ends. -/
theorem c7_rev_enumerate :
    runC 4 (Method.enumerate (rev id listD ([1, 2, 3] : List Nat)).1
        (rev id listD ([1, 2, 3] : List Nat)).2)
      = [some (0, 3), some (1, 2), some (2, 1), none] := by decide

/-- C8: `take(source, 0)` yields nothing at every position, and however long it
is driven the source state embedded in it stays untouched — for every source,
the infinite `0, 1, 2, ...` cursor included. -/
theorem c8_take_zero :
    (∀ (σ α : Type) (st : Step σ α) (s : σ) (k : Nat),
        outAt (Method.take s st 0).2 k (Method.take s st 0).1 = none
        ∧ stateAfter (Method.take s st 0).2 k (Method.take s st 0).1 = (0, s))
    ∧ runN (Method.take (0 : Nat) natsStep 0).2 3 (Method.take (0 : Nat) natsStep 0).1
        = [none, none, none] := by
  refine ⟨?_, by decide⟩
  intro σ α st s k
  constructor
  · show (takeStep st (stateAfter (takeStep st) k (0, s))).1 = none
    rw [take_zero_state]
    rfl
  · exact take_zero_state st s k

/-- C9: reversing twice is the identity on the produced sequence: for every
double-ended source, `rev(rev(source))` yields exactly what the source's
cursor yields, element by element. -/
theorem c9_rev_rev_id :
    (∀ (σ α : Type) (d : DStep σ α) (s : σ) (k : Nat),
        runN (revD (revD d)).fwd k s = runN d.fwd k s)
    ∧ (∀ (σ α : Type) (d : DStep σ α) (s : σ) (k : Nat),
        runC k (rev id (revD d) ((rev id d s).1)) = runN d.fwd k s) :=
  ⟨fun _ _ _ _ _ => rfl, fun _ _ _ _ _ => rfl⟩

/-- C10: every adapter function in the library is deterministic — two calls of
the same operation with equal conversions, equal sources, equal parameters and
the same pure closures produce cursors that yield identical element sequences,
at every run length; stated for each of the 22 free functions. -/
theorem c10_deterministic :
    (∀ (ι σ α : Type) (intoIt intoIt' : ι → σ) (st st' : Step σ α)
        (iter iter' : ι) (n n' k : Nat),
        intoIt = intoIt' → st = st' → iter = iter' → n = n' →
        (step_by intoIt st iter n).map (runC k)
          = (step_by intoIt' st' iter' n').map (runC k))
    ∧ (∀ (ιa σa ιb σb α : Type) (intoA intoA' : ιa → σa) (sta sta' : Step σa α)
        (intoB intoB' : ιb → σb) (stb stb' : Step σb α) (a a' : ιa) (b b' : ιb)
        (k : Nat),
        intoA = intoA' → sta = sta' → intoB = intoB' → stb = stb' →
        a = a' → b = b' →
        runC k (chain intoA sta intoB stb a b)
          = runC k (chain intoA' sta' intoB' stb' a' b'))
    ∧ (∀ (ιa σa ιb σb α β : Type) (intoA intoA' : ιa → σa) (sta sta' : Step σa α)
        (intoB intoB' : ιb → σb) (stb stb' : Step σb β) (a a' : ιa) (b b' : ιb)
        (k : Nat),
        intoA = intoA' → sta = sta' → intoB = intoB' → stb = stb' →
        a = a' → b = b' →
        runC k (zip intoA sta intoB stb a b)
          = runC k (zip intoA' sta' intoB' stb' a' b'))
    ∧ (∀ (ι σ α β : Type) (intoIt intoIt' : ι → σ) (st st' : Step σ α)
        (iter iter' : ι) (f f' : α → β) (k : Nat),
        intoIt = intoIt' → st = st' → iter = iter' → f = f' →
        runC k (map intoIt st iter f) = runC k (map intoIt' st' iter' f'))
    ∧ (∀ (ι σ α : Type) (intoIt intoIt' : ι → σ) (st st' : Step σ α)
        (iter iter' : ι) (p p' : α → Bool) (fuel fuel' k : Nat),
        intoIt = intoIt' → st = st' → iter = iter' → p = p' → fuel = fuel' →
        runC k (filter intoIt st iter p fuel)
          = runC k (filter intoIt' st' iter' p' fuel'))
    ∧ (∀ (ι σ α β : Type) (intoIt intoIt' : ι → σ) (st st' : Step σ α)
        (iter iter' : ι) (f f' : α → Option β) (fuel fuel' k : Nat),
        intoIt = intoIt' → st = st' → iter = iter' → f = f' → fuel = fuel' →
        runC k (filter_map intoIt st iter f fuel)
          = runC k (filter_map intoIt' st' iter' f' fuel'))
    ∧ (∀ (ι σ α : Type) (intoIt intoIt' : ι → σ) (st st' : Step σ α)
        (iter iter' : ι) (k : Nat),
        intoIt = intoIt' → st = st' → iter = iter' →
        runC k (enumerate intoIt st iter) = runC k (enumerate intoIt' st' iter'))
    ∧ (∀ (ι σ α : Type) (intoIt intoIt' : ι → σ) (st st' : Step σ α)
        (iter iter' : ι) (k : Nat),
        intoIt = intoIt' → st = st' → iter = iter' →
        runC k (peekable intoIt st iter) = runC k (peekable intoIt' st' iter'))
    ∧ (∀ (ι σ α : Type) (intoIt intoIt' : ι → σ) (st st' : Step σ α)
        (iter iter' : ι) (p p' : α → Bool) (fuel fuel' k : Nat),
        intoIt = intoIt' → st = st' → iter = iter' → p = p' → fuel = fuel' →
        runC k (skip_while intoIt st iter p fuel)
          = runC k (skip_while intoIt' st' iter' p' fuel'))
    ∧ (∀ (ι σ α : Type) (intoIt intoIt' : ι → σ) (st st' : Step σ α)
        (iter iter' : ι) (p p' : α → Bool) (k : Nat),
        intoIt = intoIt' → st = st' → iter = iter' → p = p' →
        runC k (take_while intoIt st iter p)
          = runC k (take_while intoIt' st' iter' p'))
    ∧ (∀ (ι σ α β : Type) (intoIt intoIt' : ι → σ) (st st' : Step σ α)
        (iter iter' : ι) (f f' : α → Option β) (k : Nat),
        intoIt = intoIt' → st = st' → iter = iter' → f = f' →
        runC k (map_while intoIt st iter f)
          = runC k (map_while intoIt' st' iter' f'))
    ∧ (∀ (ι σ α : Type) (intoIt intoIt' : ι → σ) (st st' : Step σ α)
        (iter iter' : ι) (n n' k : Nat),
        intoIt = intoIt' → st = st' → iter = iter' → n = n' →
        runC k (skip intoIt st iter n) = runC k (skip intoIt' st' iter' n'))
    ∧ (∀ (ι σ α : Type) (intoIt intoIt' : ι → σ) (st st' : Step σ α)
        (iter iter' : ι) (n n' k : Nat),
        intoIt = intoIt' → st = st' → iter = iter' → n = n' →
        runC k (take intoIt st iter n) = runC k (take intoIt' st' iter' n'))
    ∧ (∀ (ι σ α τ β : Type) (intoIt intoIt' : ι → σ) (st st' : Step σ α)
        (iter iter' : ι) (st0 st0' : τ) (f f' : τ → α → Option β × τ) (k : Nat),
        intoIt = intoIt' → st = st' → iter = iter' → st0 = st0' → f = f' →
        runC k (scan intoIt st iter st0 f)
          = runC k (scan intoIt' st' iter' st0' f'))
    ∧ (∀ (ι σ α ι2 σi β : Type) (intoIt intoIt' : ι → σ) (st st' : Step σ α)
        (iter iter' : ι) (f f' : α → ι2) (intoInner intoInner' : ι2 → σi)
        (sti sti' : Step σi β) (fuel fuel' k : Nat),
        intoIt = intoIt' → st = st' → iter = iter' → f = f' →
        intoInner = intoInner' → sti = sti' → fuel = fuel' →
        runC k (flat_map intoIt st iter f intoInner sti fuel)
          = runC k (flat_map intoIt' st' iter' f' intoInner' sti' fuel'))
    ∧ (∀ (ι σ ι2 σi β : Type) (intoIt intoIt' : ι → σ) (st st' : Step σ ι2)
        (iter iter' : ι) (intoInner intoInner' : ι2 → σi) (sti sti' : Step σi β)
        (fuel fuel' k : Nat),
        intoIt = intoIt' → st = st' → iter = iter' →
        intoInner = intoInner' → sti = sti' → fuel = fuel' →
        runC k (flatten intoIt st iter intoInner sti fuel)
          = runC k (flatten intoIt' st' iter' intoInner' sti' fuel'))
    ∧ (∀ (ι σ α : Type) (intoIt intoIt' : ι → σ) (st st' : Step σ α)
        (iter iter' : ι) (k : Nat),
        intoIt = intoIt' → st = st' → iter = iter' →
        runC k (fuse intoIt st iter) = runC k (fuse intoIt' st' iter'))
    ∧ (∀ (ι σ α : Type) (intoIt intoIt' : ι → σ) (st st' : Step σ α)
        (iter iter' : ι) (f f' : α → Unit) (k : Nat),
        intoIt = intoIt' → st = st' → iter = iter' → f = f' →
        runC k (inspect intoIt st iter f) = runC k (inspect intoIt' st' iter' f'))
    ∧ (∀ (ι σ α : Type) (intoIt intoIt' : ι → σ) (d d' : DStep σ α)
        (iter iter' : ι) (k : Nat),
        intoIt = intoIt' → d = d' → iter = iter' →
        runC k (rev intoIt d iter) = runC k (rev intoIt' d' iter'))
    ∧ (∀ (ι σ α : Type) (intoIt intoIt' : ι → σ) (st st' : Step σ α)
        (iter iter' : ι) (k : Nat),
        intoIt = intoIt' → st = st' → iter = iter' →
        runC k (copied intoIt st iter) = runC k (copied intoIt' st' iter'))
    ∧ (∀ (ι σ α : Type) (intoIt intoIt' : ι → σ) (st st' : Step σ α)
        (iter iter' : ι) (k : Nat),
        intoIt = intoIt' → st = st' → iter = iter' →
        runC k (cloned intoIt st iter) = runC k (cloned intoIt' st' iter'))
    ∧ (∀ (ι σ α : Type) (intoIt intoIt' : ι → σ) (st st' : Step σ α)
        (iter iter' : ι) (k : Nat),
        intoIt = intoIt' → st = st' → iter = iter' →
        runC k (cycle intoIt st iter) = runC k (cycle intoIt' st' iter')) := by
  refine ⟨?_, ?_, ?_, ?_, ?_, ?_, ?_, ?_, ?_, ?_, ?_, ?_, ?_, ?_, ?_, ?_, ?_,
    ?_, ?_, ?_, ?_, ?_⟩
  all_goals intros; subst_vars; rfl

/-- Witness for C10 at a concrete input: two `map` calls with equal conversion,
source, cursor and closure agree. -/
theorem c10_deterministic_witness :
    runC 3 (map id listStep [1, 2] (fun n => n + 1))
      = runC 3 (map id listStep [1, 2] (fun n => n + 1)) :=
  c10_deterministic.2.2.2.1 (List Nat) (List Nat) Nat Nat id id
    listStep listStep [1, 2] [1, 2] (fun n => n + 1) (fun n => n + 1) 3
    rfl rfl rfl rfl

end Iia
